import Mathlib

/-!
Verification of `src/app/utils/lazer/replayURCalc.py` (osu-dash).

The script parses one CLI argument, resolves a replay path, constructs a
Circleguard client (with a key from the environment when the constructor
demands one), computes an unstable-rate statistic, and prints exactly one
JSON document on stdout before exiting.

Shallow embedding: everything the script observes from the outside world
(argv, path expansion and resolution, the import of the circleguard module,
the constructor signature, the environment variable, and the behaviour of the
library calls) is bundled in an `Env` record of functions; Python exceptions
are values carrying the message `str(exc)` and the text that
`traceback.format_exc` with `limit` 3 would produce when they are handled.
JSON numbers are modelled exactly (as rationals); OS-level failures beyond
the `FileNotFoundError` the script tests for are outside the model.
`main` is a total Lean function returning the single emitted payload together
with the process exit status.
-/

/-- JSON values, as built by the script and serialised by `json.dumps`.
Numbers are modelled exactly by rationals. -/
inductive JValue where
  | null
  | num (n : Rat)
  | str (s : String)
  | arr (elems : List JValue)
  | obj (fields : List (String × JValue))
deriving Repr

/-- A raised Python exception, as the script can observe it: `msg` is
`str(exc)` and `trace3` is the text `traceback.format_exc` produces for it
with `limit` 3 (the only limit the script ever passes). -/
structure PyExn where
  msg : String
  trace3 : String
deriving Repr, DecidableEq

/-- A Python object returned by `cg.ur(rp)` when it is not `None`: the script
only ever passes it to `float`, which either yields a number or raises. -/
inductive PyObj where
  | num (n : Rat)
  | nonNumeric (exc : PyExn)
deriving Repr, DecidableEq

/-- Model of the call `float(v)`: convert a non-`None` UR object to a
number or raise. -/
def floatOf : PyObj → Except PyExn Rat
  | .num n => .ok n
  | .nonNumeric exc => .error exc

/-- The outcome of one run: the single JSON payload passed to `emit` and the
process exit status `emit` passes to `sys.exit`. -/
structure Output where
  payload : JValue
  exitCode : Nat
deriving Repr

/-- Everything the script reads from the outside world.

* `argv` is `sys.argv[1:]`.
* `pathExpand a` is `str(Path(a).expanduser())`.
* `resolveStrict p` is `Path(p).resolve(strict=True)`: the resolved absolute
  path, or `none` when it raises `FileNotFoundError`.
* `importCircleguard` is the `from circleguard import ...` statement.
* `pyExecutable` / `pyVersion` are `sys.executable` / `sys.version`.
* `sigParams` is `signature(Circleguard).parameters` (its parameter names),
  or the exception that introspection raised.
* `circleguardKey` is `os.environ.get('CIRCLEGUARD_KEY')`.
* `ctorResult (some k)` is `Circleguard(k)`; `ctorResult none` is
  `Circleguard()`.
* `replayPathCtor rp` is `ReplayPath(rp)`.
* `urCall rp` is `cg.ur(rp)`: an exception, `None`, or some object. -/
structure Env where
  argv : List String
  pathExpand : String → String
  resolveStrict : String → Option String
  importCircleguard : Except PyExn Unit
  pyExecutable : String
  pyVersion : String
  sigParams : Except PyExn (List String)
  circleguardKey : Option String
  ctorResult : Option String → Except PyExn Unit
  replayPathCtor : String → Except PyExn Unit
  urCall : String → Except PyExn (Option PyObj)

/-- The payload emitted by the `circleguard_key_missing` branch. -/
def keyMissingPayload : JValue :=
  .obj [("error", .str "circleguard_key_missing"),
        ("detail", .str "Circleguard requires a key. Set CIRCLEGUARD_KEY in environment.")]

/-- The payload emitted by the outer `except Exception` handler. -/
def urFailedPayload (exc : PyExn) : JValue :=
  .obj [("error", .str "ur_failed"),
        ("detail", .str exc.msg),
        ("trace", .str exc.trace3)]

/-- Body of the outer `try` after the client constructor has been chosen:
run the constructor, wrap the path in `ReplayPath`, call `cg.ur`, and convert
a non-`None` result with `float`; any raise aborts with that exception. -/
def tryBody (e : Env) (rp : String) (ctor : Except PyExn Unit) : Except PyExn Output :=
  match ctor with
  | .error exc => .error exc
  | .ok _ =>
    match e.replayPathCtor rp with
    | .error exc => .error exc
    | .ok _ =>
      match e.urCall rp with
      | .error exc => .error exc
      | .ok none => .ok ⟨.obj [("ur", .null)], 0⟩
      | .ok (some v) =>
        match floatOf v with
        | .error exc => .error exc
        | .ok n => .ok ⟨.obj [("ur", .num n)], 0⟩

/-- The outer `except Exception` handler: pass a normal emission through,
turn a raised exception into the `ur_failed` emission with exit status 1. -/
def mkResult : Except PyExn Output → Output
  | .ok o => o
  | .error exc => ⟨urFailedPayload exc, 1⟩

/-- The whole outer `try` statement: introspect the constructor signature
(falling back to no parameters when introspection raises), demand
`CIRCLEGUARD_KEY` when a `key` parameter is declared (`if not env_key`
rejects both an unset and an empty variable; that emission escapes the
handler because `sys.exit` raises `SystemExit`, not `Exception`), then run
the body under the handler. -/
def trySection (e : Env) (rp : String) : Output :=
  let params := match e.sigParams with
    | .ok ps => ps
    | .error _ => []
  if params.contains "key" then
    match e.circleguardKey with
    | none => ⟨keyMissingPayload, 1⟩
    | some k =>
      if k = "" then ⟨keyMissingPayload, 1⟩
      else mkResult (tryBody e rp (e.ctorResult (some k)))
  else
    mkResult (tryBody e rp (e.ctorResult none))

/-- The function `main`: the argument check, path expansion and strict
resolution, the guarded import, and the `try` section, each failure branch
emitting its JSON payload with exit status 1. -/
def ReplayURCalc.main (e : Env) : Output :=
  match e.argv with
  | [] =>
    ⟨.obj [("error", .str "missing_replay_path"),
           ("argv", .arr (e.argv.map JValue.str))], 1⟩
  | arg :: _ =>
    let expanded := e.pathExpand arg
    match e.resolveStrict expanded with
    | none => ⟨.obj [("error", .str "replay_not_found"), ("path", .str expanded)], 1⟩
    | some rp =>
      match e.importCircleguard with
      | .error exc =>
        ⟨.obj [("error", .str "import_failed"),
               ("detail", .str exc.msg),
               ("python", .str e.pyExecutable),
               ("version", .str e.pyVersion)], 1⟩
      | .ok _ => trySection e rp

/-- Field lookup in a JSON object (first occurrence), `none` on non-objects. -/
def lookupField : JValue → String → Option JValue
  | .obj fields, k => (fields.find? (fun p => p.1 == k)).map Prod.snd
  | _, _ => none

/-- The parameter-name list `main` effectively uses: the introspected names,
or the empty fallback when introspection raised. -/
def effectiveParams (e : Env) : List String :=
  match e.sigParams with
  | .ok ps => ps
  | .error _ => []

/-- Does the `trySection` stop at the `circleguard_key_missing` emission? -/
def keyBlocked (e : Env) : Bool :=
  (effectiveParams e).contains "key" &&
    (match e.circleguardKey with
     | none => true
     | some k => k = "")

/-- The argument actually passed to the `Circleguard` constructor when the
key check does not block: the environment key when a `key` parameter is
declared, no argument otherwise. -/
def chosenKey (e : Env) : Option String :=
  if (effectiveParams e).contains "key" then e.circleguardKey else none

/-- A concrete environment for witnesses: one argument, trivial path
expansion and resolution, a key-free constructor, a numeric UR result. -/
def baseEnv : Env where
  argv := ["replay.osr"]
  pathExpand := id
  resolveStrict := some
  importCircleguard := .ok ()
  pyExecutable := "/usr/bin/python3"
  pyVersion := "3.11.0"
  sigParams := .ok []
  circleguardKey := none
  ctorResult := fun _ => .ok ()
  replayPathCtor := fun _ => .ok ()
  urCall := fun _ => .ok (some (.num 16))

/-- Unfolding `trySection` through `effectiveParams`. -/
theorem trySection_def (e : Env) (rp : String) :
    trySection e rp =
      if (effectiveParams e).contains "key" then
        match e.circleguardKey with
        | none => ⟨keyMissingPayload, 1⟩
        | some k =>
          if k = "" then ⟨keyMissingPayload, 1⟩
          else mkResult (tryBody e rp (e.ctorResult (some k)))
      else
        mkResult (tryBody e rp (e.ctorResult none)) := rfl

/-- The section either stops at the key check or runs the body with the
constructor applied to `chosenKey`. -/
theorem trySection_eq (e : Env) (rp : String) :
    trySection e rp =
      if keyBlocked e then ⟨keyMissingPayload, 1⟩
      else mkResult (tryBody e rp (e.ctorResult (chosenKey e))) := by
  rw [trySection_def]
  unfold keyBlocked chosenKey
  by_cases hk : (effectiveParams e).contains "key"
  · simp only [hk, if_true, Bool.true_and]
    cases hc : e.circleguardKey with
    | none => simp
    | some k =>
      by_cases hke : k = "" <;> simp [hke]
  · simp at hk
    simp [hk]

/-- Every outcome of the guarded body: a raised exception, the null success
payload, or a numeric success payload. -/
theorem tryBody_cases (e : Env) (rp : String) (ctor : Except PyExn Unit) :
    (∃ exc, tryBody e rp ctor = .error exc) ∨
      tryBody e rp ctor = .ok ⟨.obj [("ur", .null)], 0⟩ ∨
      ∃ n, tryBody e rp ctor = .ok ⟨.obj [("ur", .num n)], 0⟩ := by
  unfold tryBody
  cases ctor with
  | error exc => exact .inl ⟨exc, rfl⟩
  | ok u =>
    cases e.replayPathCtor rp with
    | error exc => exact .inl ⟨exc, rfl⟩
    | ok v =>
      cases e.urCall rp with
      | error exc => exact .inl ⟨exc, rfl⟩
      | ok ov =>
        cases ov with
        | none => exact .inr (.inl rfl)
        | some w =>
          cases w with
          | num n => exact .inr (.inr ⟨n, rfl⟩)
          | nonNumeric exc => exact .inl ⟨exc, rfl⟩

/-- After the handler, the section always produces a JSON object with exit
status 0 or 1. -/
theorem mkResult_tryBody_shape (e : Env) (rp : String) (ctor : Except PyExn Unit) :
    (∃ fs, (mkResult (tryBody e rp ctor)).payload = .obj fs) ∧
      ((mkResult (tryBody e rp ctor)).exitCode = 0 ∨
        (mkResult (tryBody e rp ctor)).exitCode = 1) := by
  rcases tryBody_cases e rp ctor with ⟨exc, h⟩ | h | ⟨n, h⟩ <;>
    simp [h, mkResult, urFailedPayload]

/-- C1: every run of the script terminates in exactly one emission — `main`
is a total function into `Output` — and the emitted payload is always a
single JSON object, with process exit status 0 or 1, on every branch. -/
theorem c1_single_json_emission (e : Env) :
    (∃ fs, (ReplayURCalc.main e).payload = JValue.obj fs) ∧
      ((ReplayURCalc.main e).exitCode = 0 ∨ (ReplayURCalc.main e).exitCode = 1) := by
  rcases hargv : e.argv with _ | ⟨a, t⟩
  · simp [ReplayURCalc.main, hargv]
  · rcases hres : e.resolveStrict (e.pathExpand a) with _ | rp
    · simp [ReplayURCalc.main, hargv, hres]
    · rcases himp : e.importCircleguard with exc | u
      · simp [ReplayURCalc.main, hargv, hres, himp]
      · have hm : ReplayURCalc.main e = trySection e rp := by
          simp [ReplayURCalc.main, hargv, hres, himp]
        rw [hm, trySection_eq]
        by_cases hb : keyBlocked e
        · simp [hb, keyMissingPayload]
        · simp only [hb, Bool.false_eq_true, if_false]
          exact mkResult_tryBody_shape e rp (e.ctorResult (chosenKey e))

/-- C2: when a path argument is given, resolution and the import succeed,
the key check does not block, and the whole computation returns a numeric
UR value, the script emits exactly the object with the single field `ur`
holding that number, and exits with status 0. -/
theorem c2_success_numeric (e : Env) (p : String) (rest : List String) (rp : String) (n : Rat)
    (hargv : e.argv = p :: rest)
    (hres : e.resolveStrict (e.pathExpand p) = some rp)
    (himp : e.importCircleguard = .ok ())
    (hkey : keyBlocked e = false)
    (hctor : e.ctorResult (chosenKey e) = .ok ())
    (hrp : e.replayPathCtor rp = .ok ())
    (hur : e.urCall rp = .ok (some (PyObj.num n))) :
    ReplayURCalc.main e = ⟨.obj [("ur", .num n)], 0⟩ := by
  simp only [ReplayURCalc.main, hargv, hres, himp, trySection_eq, hkey, if_false,
    Bool.false_eq_true]
  simp [tryBody, hctor, hrp, hur, floatOf, mkResult]

/-- Witness for C2 on a concrete environment returning UR 16. -/
theorem c2_success_numeric_witness :
    ReplayURCalc.main baseEnv = ⟨.obj [("ur", .num 16)], 0⟩ :=
  c2_success_numeric baseEnv "replay.osr" [] "replay.osr" 16 rfl rfl rfl rfl rfl rfl rfl

/-- C3: with no path argument the script emits the `missing_replay_path`
object whose `argv` field is the empty list, and exits with status 1. -/
theorem c3_missing_path (e : Env) (h : e.argv = []) :
    ReplayURCalc.main e =
      ⟨.obj [("error", .str "missing_replay_path"), ("argv", .arr [])], 1⟩ := by
  simp [ReplayURCalc.main, h]

/-- A concrete environment with no CLI argument. -/
def noArgEnv : Env := { baseEnv with argv := [] }

/-- Witness for C3 on a concrete argument-free environment. -/
theorem c3_missing_path_witness :
    ReplayURCalc.main noArgEnv =
      ⟨.obj [("error", .str "missing_replay_path"), ("argv", .arr [])], 1⟩ :=
  c3_missing_path noArgEnv rfl

/-- C4: when strict resolution of the expanded path fails with
`FileNotFoundError`, the script emits the `replay_not_found` object whose
`path` field holds the expanded (attempted) path, and exits with status 1. -/
theorem c4_replay_not_found (e : Env) (p : String) (rest : List String)
    (hargv : e.argv = p :: rest)
    (hres : e.resolveStrict (e.pathExpand p) = none) :
    ReplayURCalc.main e =
      ⟨.obj [("error", .str "replay_not_found"), ("path", .str (e.pathExpand p))], 1⟩ := by
  simp [ReplayURCalc.main, hargv, hres]

/-- A concrete environment whose replay path never resolves. -/
def notFoundEnv : Env := { baseEnv with resolveStrict := fun _ => none }

/-- Witness for C4 on a concrete environment with an unresolvable path. -/
theorem c4_replay_not_found_witness :
    ReplayURCalc.main notFoundEnv =
      ⟨.obj [("error", .str "replay_not_found"), ("path", .str "replay.osr")], 1⟩ :=
  c4_replay_not_found notFoundEnv "replay.osr" [] rfl rfl

/-- C5: when the path, resolution and import steps succeed, the key shim
behaves as specified: with a declared `key` parameter, an unset or empty
`CIRCLEGUARD_KEY` stops the run at the `circleguard_key_missing` emission
with exit status 1, while a non-empty key makes the run proceed as the
guarded computation with the client constructed on that key; without a
`key` parameter the run proceeds with the client constructed on no
arguments. -/
theorem c5_key_shim (e : Env) (p : String) (rest : List String) (rp : String)
    (hargv : e.argv = p :: rest)
    (hres : e.resolveStrict (e.pathExpand p) = some rp)
    (himp : e.importCircleguard = .ok ()) :
    ((effectiveParams e).contains "key" = true →
      ((e.circleguardKey = none ∨ e.circleguardKey = some "") →
        ReplayURCalc.main e = ⟨keyMissingPayload, 1⟩) ∧
      (∀ k, e.circleguardKey = some k → k ≠ "" →
        ReplayURCalc.main e = mkResult (tryBody e rp (e.ctorResult (some k))))) ∧
    ((effectiveParams e).contains "key" = false →
      ReplayURCalc.main e = mkResult (tryBody e rp (e.ctorResult none))) := by
  have hm : ReplayURCalc.main e = trySection e rp := by
    simp [ReplayURCalc.main, hargv, hres, himp]
  rw [hm, trySection_def]
  constructor
  · intro hk
    have hk2 : "key" ∈ effectiveParams e := by simpa using hk
    constructor
    · rintro (hc | hc) <;> simp [hk2, hc]
    · intro k hc hke
      simp [hk2, hc, hke]
  · intro hk
    have hk2 : "key" ∉ effectiveParams e := by simpa using hk
    simp [hk2]

/-- A concrete environment whose constructor declares `key` and whose
environment variable holds a non-empty key. -/
def keyedEnv : Env :=
  { baseEnv with sigParams := .ok ["key"], circleguardKey := some "abc123" }

/-- Witness for C5: with the key set, the run proceeds with the client
constructed on that key. -/
theorem c5_key_shim_witness :
    ReplayURCalc.main keyedEnv =
      mkResult (tryBody keyedEnv "replay.osr" (keyedEnv.ctorResult (some "abc123"))) :=
  ((c5_key_shim keyedEnv "replay.osr" [] "replay.osr" rfl rfl rfl).1
    (by decide)).2 "abc123" rfl (by decide)

/-- A concrete environment whose guarded computation raises an exception
with an empty message. -/
def emptyMsgEnv : Env :=
  { baseEnv with urCall := fun _ => .error ⟨"", "Traceback, most recent call last"⟩ }

/-- The requirement C6 places on the `detail` field: some non-empty string. -/
def detailNonEmpty (o : Output) : Prop :=
  ∃ s, lookupField o.payload "detail" = some (.str s) ∧ s ≠ ""

/-- Counterexample to C6 as stated: a raised exception whose message is the
empty string is reported with an empty `detail` field, so the emitted
object fails the non-emptiness requirement even though the run did take the
`ur_failed` branch with exit status 1. -/
theorem c6_counterexample :
    lookupField (ReplayURCalc.main emptyMsgEnv).payload "error" =
      some (.str "ur_failed") ∧
    lookupField (ReplayURCalc.main emptyMsgEnv).payload "detail" = some (.str "") ∧
    (ReplayURCalc.main emptyMsgEnv).exitCode = 1 ∧
    ¬ detailNonEmpty (ReplayURCalc.main emptyMsgEnv) := by
  have hm : ReplayURCalc.main emptyMsgEnv =
      ⟨.obj [("error", .str "ur_failed"), ("detail", .str ""),
             ("trace", .str "Traceback, most recent call last")], 1⟩ := rfl
  refine ⟨rfl, rfl, rfl, ?_⟩
  rintro ⟨s, hs, hne⟩
  rw [hm] at hs
  simp [lookupField] at hs
  exact hne hs.symm

/-- C6 amended: on any exception raised inside the guarded body — client
construction, replay-handle construction, the UR call, or the float
conversion — the script emits the `ur_failed` object whose `detail` field
holds the exception message (which may be empty) and whose `trace` field
holds the limit-3 formatted traceback, and exits with status 1. -/
theorem c6_ur_failed (e : Env) (p : String) (rest : List String) (rp : String) (exc : PyExn)
    (hargv : e.argv = p :: rest)
    (hres : e.resolveStrict (e.pathExpand p) = some rp)
    (himp : e.importCircleguard = .ok ())
    (hkey : keyBlocked e = false)
    (hfail : tryBody e rp (e.ctorResult (chosenKey e)) = .error exc) :
    ReplayURCalc.main e =
      ⟨.obj [("error", .str "ur_failed"), ("detail", .str exc.msg),
             ("trace", .str exc.trace3)], 1⟩ := by
  simp only [ReplayURCalc.main, hargv, hres, himp, trySection_eq, hkey,
    Bool.false_eq_true, if_false, hfail, mkResult, urFailedPayload]

/-- Witness for the amended C6 on the concrete empty-message environment. -/
theorem c6_ur_failed_witness :
    ReplayURCalc.main emptyMsgEnv =
      ⟨.obj [("error", .str "ur_failed"), ("detail", .str ""),
             ("trace", .str "Traceback, most recent call last")], 1⟩ :=
  c6_ur_failed emptyMsgEnv "replay.osr" [] "replay.osr"
    ⟨"", "Traceback, most recent call last"⟩ rfl rfl rfl rfl rfl

/-- C7: when the UR call returns `None`, the script treats it as success:
it emits the object whose single field `ur` is null and exits with
status 0. -/
theorem c7_null_success (e : Env) (p : String) (rest : List String) (rp : String)
    (hargv : e.argv = p :: rest)
    (hres : e.resolveStrict (e.pathExpand p) = some rp)
    (himp : e.importCircleguard = .ok ())
    (hkey : keyBlocked e = false)
    (hctor : e.ctorResult (chosenKey e) = .ok ())
    (hrp : e.replayPathCtor rp = .ok ())
    (hur : e.urCall rp = .ok none) :
    ReplayURCalc.main e = ⟨.obj [("ur", .null)], 0⟩ := by
  simp only [ReplayURCalc.main, hargv, hres, himp, trySection_eq, hkey,
    Bool.false_eq_true, if_false]
  simp [tryBody, hctor, hrp, hur, mkResult]

/-- A concrete environment whose UR call returns `None`. -/
def nullUrEnv : Env := { baseEnv with urCall := fun _ => .ok none }

/-- Witness for C7 on a concrete environment returning `None`. -/
theorem c7_null_success_witness :
    ReplayURCalc.main nullUrEnv = ⟨.obj [("ur", .null)], 0⟩ :=
  c7_null_success nullUrEnv "replay.osr" [] "replay.osr" rfl rfl rfl rfl rfl rfl rfl

/-- C8: when the UR call returns a non-`None` object whose float conversion
raises, the failure is caught by the surrounding handler: the script emits
the `ur_failed` object for that exception and exits with status 1, not a
success payload. -/
theorem c8_nonconvertible (e : Env) (p : String) (rest : List String) (rp : String) (exc : PyExn)
    (hargv : e.argv = p :: rest)
    (hres : e.resolveStrict (e.pathExpand p) = some rp)
    (himp : e.importCircleguard = .ok ())
    (hkey : keyBlocked e = false)
    (hctor : e.ctorResult (chosenKey e) = .ok ())
    (hrp : e.replayPathCtor rp = .ok ())
    (hur : e.urCall rp = .ok (some (.nonNumeric exc))) :
    ReplayURCalc.main e = ⟨urFailedPayload exc, 1⟩ := by
  simp only [ReplayURCalc.main, hargv, hres, himp, trySection_eq, hkey,
    Bool.false_eq_true, if_false]
  simp [tryBody, hctor, hrp, hur, floatOf, mkResult]

/-- A concrete environment whose UR call returns a non-convertible object. -/
def badObjEnv : Env :=
  { baseEnv with
      urCall := fun _ =>
        .ok (some (.nonNumeric ⟨"could not convert argument to float", "tb"⟩)) }

/-- Witness for C8 on a concrete non-convertible UR result. -/
theorem c8_nonconvertible_witness :
    ReplayURCalc.main badObjEnv =
      ⟨urFailedPayload ⟨"could not convert argument to float", "tb"⟩, 1⟩ :=
  c8_nonconvertible badObjEnv "replay.osr" [] "replay.osr"
    ⟨"could not convert argument to float", "tb"⟩ rfl rfl rfl rfl rfl rfl rfl

/-- C9: when introspecting the constructor signature raises, the script
falls back to an empty parameter mapping, so the `try` section always runs
the body with the client constructed on no arguments, and no branch of the
whole run ever emits an object whose `error` field is
`circleguard_key_missing`. -/
theorem c9_introspection_fallback (e : Env) (exc : PyExn)
    (hsig : e.sigParams = .error exc) :
    effectiveParams e = [] ∧
    (∀ rp, trySection e rp = mkResult (tryBody e rp (e.ctorResult none))) ∧
    lookupField (ReplayURCalc.main e).payload "error" ≠
      some (.str "circleguard_key_missing") := by
  have hp : effectiveParams e = [] := by simp [effectiveParams, hsig]
  have hts : ∀ rp, trySection e rp = mkResult (tryBody e rp (e.ctorResult none)) := by
    intro rp
    rw [trySection_def, hp]
    simp
  refine ⟨hp, hts, ?_⟩
  rcases hargv : e.argv with _ | ⟨a, t⟩
  · simp [ReplayURCalc.main, hargv, lookupField]
  · rcases hres : e.resolveStrict (e.pathExpand a) with _ | rp
    · simp [ReplayURCalc.main, hargv, hres, lookupField]
    · rcases himp : e.importCircleguard with iexc | u
      · simp [ReplayURCalc.main, hargv, hres, himp, lookupField]
      · have hm : ReplayURCalc.main e = trySection e rp := by
          simp [ReplayURCalc.main, hargv, hres, himp]
        rw [hm, hts rp]
        rcases tryBody_cases e rp (e.ctorResult none) with ⟨exc2, h⟩ | h | ⟨n, h⟩ <;>
          simp [h, mkResult, urFailedPayload, lookupField]

/-- A concrete environment whose signature introspection raises. -/
def badSigEnv : Env :=
  { baseEnv with sigParams := .error ⟨"unsupported callable", "tb"⟩ }

/-- Witness for C9 on a concrete environment with failing introspection. -/
theorem c9_introspection_fallback_witness :
    effectiveParams badSigEnv = [] ∧
    trySection badSigEnv "replay.osr" =
      mkResult (tryBody badSigEnv "replay.osr" (badSigEnv.ctorResult none)) ∧
    lookupField (ReplayURCalc.main badSigEnv).payload "error" ≠
      some (.str "circleguard_key_missing") :=
  ⟨(c9_introspection_fallback badSigEnv ⟨"unsupported callable", "tb"⟩ rfl).1,
   (c9_introspection_fallback badSigEnv ⟨"unsupported callable", "tb"⟩ rfl).2.1 "replay.osr",
   (c9_introspection_fallback badSigEnv ⟨"unsupported callable", "tb"⟩ rfl).2.2⟩

/-- C10: with two or more CLI arguments the run depends only on the first:
replacing every argument after the first changes neither the emitted
payload nor the exit status. -/
theorem c10_extra_args_ignored (e : Env) (a b1 b2 : String) (t1 t2 : List String) :
    ReplayURCalc.main { e with argv := a :: b1 :: t1 } =
      ReplayURCalc.main { e with argv := a :: b2 :: t2 } := rfl
